import Mathlib

/-!
Verification of the PID balance-rig firmware.

The repository holds two firmware variants:
* `src/PracticeV2.ino` — the standalone dual-ESC PID balance sketch
  (embedded below in namespace `V1`), and
* `src/PracticeV2/PracticeV2.ino` — the web-UI experiment firmware with the
  /state, /set, /start and /data HTTP handlers and the 50 ms sampling buffer
  (embedded at top level; the claims cite its line numbers).

Modelling conventions:
* C `float` values are modelled as exact rationals (ℚ); the properties at
  stake are control-flow and clamping properties, not rounding properties.
* C `(int)` casts of floats truncate toward zero (`cTrunc`); `roundf` rounds
  half away from zero (`roundHalfAway`).
* `millis()` is a monotonic Nat; `uint32` subtraction `now - last` agrees
  with Nat subtraction while the clock does not wrap within a run.
* The `(uint16_t)` cast of a sample time offset is `% 65536`.
* Blocking real-time waits (the SlewBothTo while-loop, delay) are modelled by
  passing the wall-clock time they consume as an explicit parameter.
-/

namespace PidRig

/-- C cast of a float value to int: truncation toward zero. -/
def cTrunc (q : ℚ) : Int := if 0 ≤ q then ⌊q⌋ else ⌈q⌉

/-- C `roundf`: rounds half away from zero. -/
def roundHalfAway (q : ℚ) : Int := if 0 ≤ q then ⌊q + 1/2⌋ else ⌈q - 1/2⌉

-- Constants of src/PracticeV2/PracticeV2.ino (lines 498-512, 520-523, 546,
-- 561-562). BaseUs, DeltaMaxUs, SlewStepUs, PotCenter are `static int`
-- globals that nothing in the program writes, so they are constants here.
def PulseMinUs : Int := 1100
def PulseMaxUs : Int := 1500
def BaseUs : Int := 1250
def DeltaMaxUs : Int := 120
def SlewStepUs : Int := 4
def PotCenter : Int := 660
def PotMinSafe : Int := 300
def PotMaxSafe : Int := 900
def PotAlpha : ℚ := 1/5
def DAlpha : ℚ := 1/5
def IntegralMaxUs : Int := 80
def LoopDtMs : Nat := 10
def ExperimentDurationMs : Nat := 20000
def SamplePeriodMs : Nat := 50
def MaxSamples : Nat := 500

/-- Source ClampInt (line 581): `(v<lo)?lo:(v>hi)?hi:v`. -/
def ClampInt (v lo hi : Int) : Int := if v < lo then lo else if v > hi then hi else v

/-- Arduino `constrain` on floats, used by HandleSet. -/
def constrainQ (v lo hi : ℚ) : ℚ := if v < lo then lo else if v > hi then hi else v

/-- The two successive clamping ifs `if(x> lim)x= lim; if(x<-lim)x=-lim;`
used for the integral (±IntegralMaxUs), the output (±DeltaMaxUs) and the
logged PID terms (±2000). -/
def clampMagQ (v lim : ℚ) : ℚ := if v > lim then lim else if v < -lim then -lim else v

/-- The mutable tuning globals KpUsPerCount, KiUsPerCountSec,
KdUsPerCountPerSec, InvertDirection (lines 510, 520-522). -/
structure Config where
  KpUsPerCount : ℚ
  KiUsPerCountSec : ℚ
  KdUsPerCountPerSec : ℚ
  InvertDirection : Bool
  deriving Repr, DecidableEq

/-- Power-on values of the tuning globals. -/
def defaultConfig : Config :=
  { KpUsPerCount := 1/4, KiUsPerCountSec := 1/10, KdUsPerCountPerSec := 1/10,
    InvertDirection := false }

/-- The mutable controller globals (lines 525-528, 534-535) plus the
`static int lastY` local of ControlStepPID (line 663). -/
structure CtrlState where
  IntUs : ℚ
  DerivFilt : ℚ
  PotFiltered : Int
  LastTsMs : Nat
  lastY : Int
  CmdUs1 : Int
  CmdUs2 : Int
  deriving Repr, DecidableEq

/-- Source HoldEscMin (lines 587-592): both commands directly to PulseMinUs,
no slewing; the PID globals are untouched. -/
def HoldEscMin (s : CtrlState) : CtrlState :=
  { s with CmdUs1 := PulseMinUs, CmdUs2 := PulseMinUs }

/-- Lazy filter seeding `if (PotFiltered==0) PotFiltered=raw;` (line 651). -/
def potSeed (s : CtrlState) (raw : Int) : Int :=
  if s.PotFiltered = 0 then raw else s.PotFiltered

/-- Filter update `PotFiltered = (int)((1.0f-PotAlpha)*PotFiltered + PotAlpha*raw);`
(line 652). -/
def potFilteredNext (s : CtrlState) (raw : Int) : Int :=
  cTrunc ((1 - PotAlpha) * (potSeed s raw : ℚ) + PotAlpha * (raw : ℚ))

/-- Error computation `err = PotCenter - PotFiltered; if (InvertDirection) err = -err;`
(lines 654-655). -/
def errOf (cfg : Config) (pf : Int) : Int :=
  if cfg.InvertDirection then -(PotCenter - pf) else PotCenter - pf

/-- Step time dtSec (lines 657-661): uint32 elapsed ms / 1000, replaced by
LoopDtMs/1000 when non-positive; LastTsMs==0 marks a fresh reset. -/
def dtSecOf (s : CtrlState) (now : Nat) : ℚ :=
  let last := if s.LastTsMs = 0 then now else s.LastTsMs
  let dt0 : ℚ := ((now - last : Nat) : ℚ) / 1000
  if dt0 ≤ 0 then (LoopDtMs : ℚ) / 1000 else dt0

/-- Derivative seeding `if (lastY==0) lastY=PotFiltered;` (line 664), after the filter update. -/
def lastYSeed (s : CtrlState) (pf : Int) : Int :=
  if s.lastY = 0 then pf else s.lastY

/-- Filtered measurement derivative (lines 665-668). -/
def derivFiltNext (s : CtrlState) (raw : Int) (now : Nat) : ℚ :=
  let pf := potFilteredNext s raw
  let dY : ℚ := ((pf - lastYSeed s pf : Int) : ℚ) / dtSecOf s now
  (1 - DAlpha) * s.DerivFilt + DAlpha * dY

/-- Integral update of the web-UI controller (lines 670-672): unconditional
accumulation, then the ±IntegralMaxUs clamp. -/
def intUsNext (cfg : Config) (s : CtrlState) (raw : Int) (now : Nat) : ℚ :=
  clampMagQ
    (s.IntUs + cfg.KiUsPerCountSec * (errOf cfg (potFilteredNext s raw) : ℚ) * dtSecOf s now)
    (IntegralMaxUs : ℚ)

/-- The un-integrated part of the output, P + D, in output units. -/
def uPDOf (cfg : Config) (s : CtrlState) (raw : Int) (now : Nat) : ℚ :=
  cfg.KpUsPerCount * (errOf cfg (potFilteredNext s raw) : ℚ)
    - cfg.KdUsPerCountPerSec * derivFiltNext s raw now

/-- Source ControlStepPID of src/PracticeV2/PracticeV2.ino (lines 642-688).
raw is this step's analogRead, now its millis(). The out-of-range safety
branch (lines 644-649) jumps straight to HoldEscMin and returns. -/
def ControlStepPID (cfg : Config) (s : CtrlState) (raw : Int) (now : Nat) : CtrlState :=
  if raw < PotMinSafe ∨ PotMaxSafe < raw then HoldEscMin s
  else
    let pf := potFilteredNext s raw
    let int2 := intUsNext cfg s raw now
    let deriv := derivFiltNext s raw now
    let uDiff := clampMagQ
      (cfg.KpUsPerCount * (errOf cfg pf : ℚ) + int2 - cfg.KdUsPerCountPerSec * deriv)
      (DeltaMaxUs : ℚ)
    let u1 := ClampInt (BaseUs + cTrunc uDiff) PulseMinUs PulseMaxUs
    let u2 := ClampInt (BaseUs - cTrunc uDiff) PulseMinUs PulseMaxUs
    { IntUs := int2, DerivFilt := deriv, PotFiltered := pf, LastTsMs := now, lastY := pf,
      CmdUs1 := s.CmdUs1 + ClampInt (u1 - s.CmdUs1) (-SlewStepUs) SlewStepUs,
      CmdUs2 := s.CmdUs2 + ClampInt (u2 - s.CmdUs2) (-SlewStepUs) SlewStepUs }

/-- One recorded instrumentation sample (arrays Tms, AdcRaw, AdcFilt,
AdcErr, PUs, IUs, DUs; lines 564-571). -/
structure Sample where
  tms : Nat
  adcRaw : Int
  adcFilt : Int
  adcErr : Int
  pUs : Int
  iUs : Int
  dUs : Int
  deriving Repr, DecidableEq

/-- The full mutable experiment state of the web-UI firmware. -/
structure SysState where
  running : Bool
  cfg : Config
  ctrl : CtrlState
  samples : List Sample
  SamplesReady : Bool
  ExperimentStartMs : Nat
  ExperimentEndMs : Nat
  NextSampleAtMs : Nat
  deriving Repr, DecidableEq

/-- The sample recorded by TrySample (lines 699-718); raw is TrySample's own
analogRead, now its millis(). -/
def sampleOf (st : SysState) (raw : Int) (now : Nat) : Sample :=
  let err := errOf st.cfg st.ctrl.PotFiltered
  { tms := (now - st.ExperimentStartMs) % 65536
    adcRaw := ClampInt raw 0 1023
    adcFilt := ClampInt st.ctrl.PotFiltered 0 1023
    adcErr := ClampInt err (-32768) 32767
    pUs := cTrunc (clampMagQ (st.cfg.KpUsPerCount * (err : ℚ)) 2000)
    iUs := cTrunc (clampMagQ st.ctrl.IntUs 2000)
    dUs := cTrunc (clampMagQ (-st.cfg.KdUsPerCountPerSec * st.ctrl.DerivFilt) 2000) }

/-- Source TrySample (lines 693-722): record at most one sample per call, only
while running, only when the 50 ms schedule is due, only below capacity. -/
def TrySample (st : SysState) (raw : Int) (now : Nat) : SysState :=
  if st.running = false then st
  else if now < st.NextSampleAtMs then st
  else if MaxSamples ≤ st.samples.length then st
  else
    { st with samples := st.samples ++ [sampleOf st raw now],
              NextSampleAtMs := st.NextSampleAtMs + SamplePeriodMs }

/-- One pass of the SlewBothTo while-loop body on one channel
(lines 603-604). -/
def SlewIter (c t : Int) : Int := c + ClampInt (t - c) (-SlewStepUs) SlewStepUs

/-- The SlewBothTo while-loop (lines 601-609), with explicit fuel; it stops
as soon as both channels reached their targets. -/
def SlewBothToAux : Nat → Int × Int → Int × Int → Int × Int
  | 0, cs, _ => cs
  | fuel+1, (c1, c2), (t1, t2) =>
    if c1 = t1 ∧ c2 = t2 then (c1, c2)
    else SlewBothToAux fuel (SlewIter c1 t1, SlewIter c2 t2) (t1, t2)

/-- Source SlewBothTo (lines 597-610): clamp the targets into the working range,
then run the loop to convergence (the fuel below is exactly the remaining
total distance, which the loop strictly decreases; see
`SlewBothToAux_converges`). -/
def SlewBothTo (c1 c2 target1 target2 : Int) : Int × Int :=
  let t1 := ClampInt target1 PulseMinUs PulseMaxUs
  let t2 := ClampInt target2 PulseMinUs PulseMaxUs
  SlewBothToAux ((t1 - c1).natAbs + (t2 - c2).natAbs) (c1, c2) (t1, t2)

/-- Reply of the /start handler. -/
inductive StartResp where
  | alreadyRunning
  | started
  deriving Repr, DecidableEq

/-- Source HandleStart (lines 993-1021). now is millis() at entry; slewMs is the
wall-clock time consumed by the blocking SlewBothTo call, so the millis()
read that arms ExperimentEndMs (line 1011) returns now + slewMs. Note that
ExperimentStartMs and NextSampleAtMs are armed before the slew (lines
1004-1005) while ExperimentEndMs is armed after it. -/
def HandleStart (st : SysState) (now slewMs : Nat) : SysState × StartResp :=
  if st.running = true then (st, StartResp.alreadyRunning)
  else
    let cs := SlewBothTo st.ctrl.CmdUs1 st.ctrl.CmdUs2 BaseUs BaseUs
    ({ st with
        running := true
        ctrl := { st.ctrl with IntUs := 0, DerivFilt := 0, LastTsMs := now, CmdUs1 := cs.1, CmdUs2 := cs.2 }
        samples := []
        SamplesReady := false
        ExperimentStartMs := now
        NextSampleAtMs := now
        ExperimentEndMs := now + slewMs + ExperimentDurationMs },
      StartResp.started)

/-- A /set request: each field independently optional (lines 985-991). -/
structure SetReq where
  kp : Option ℚ
  ki : Option ℚ
  kd : Option ℚ
  invert : Option Int
  deriving Repr, DecidableEq

/-- Source HandleSet (lines 985-991): each present field is constrained into its
safe range and stored; the reply is always ok. -/
def HandleSet (cfg : Config) (r : SetReq) : Config :=
  let cfg1 := match r.kp with
    | some v => { cfg with KpUsPerCount := constrainQ v 0 5 }
    | none => cfg
  let cfg2 := match r.ki with
    | some v => { cfg1 with KiUsPerCountSec := constrainQ v 0 1 }
    | none => cfg1
  let cfg3 := match r.kd with
    | some v => { cfg2 with KdUsPerCountPerSec := constrainQ v 0 2 }
    | none => cfg2
  match r.invert with
    | some v => { cfg3 with InvertDirection := v != 0 }
    | none => cfg3

/-- The JSON fields of the /state reply (lines 958-983). -/
structure StateReply where
  running : Bool
  remainMs : Int
  kp : ℚ
  ki : ℚ
  kd : ℚ
  invert : Bool
  adc : Int
  err : Int
  m1 : Int
  m2 : Int
  deriving Repr, DecidableEq

/-- Source HandleState (lines 958-983). adc is the handler's analogRead; remainMs
models `(int32)(ExperimentEndMs-now)` floored at 0, exact while now is
within 2^31 ms of the deadline. -/
def HandleState (st : SysState) (adc : Int) (now : Nat) : StateReply :=
  { running := st.running
    remainMs := if st.running = true
      then max ((st.ExperimentEndMs : Int) - (now : Int)) 0 else 0
    kp := st.cfg.KpUsPerCount
    ki := st.cfg.KiUsPerCountSec
    kd := st.cfg.KdUsPerCountPerSec
    invert := st.cfg.InvertDirection
    adc := adc
    err := errOf st.cfg st.ctrl.PotFiltered
    m1 := st.ctrl.CmdUs1
    m2 := st.ctrl.CmdUs2 }

/-- One iteration of `loop()` (lines 1140-1176). When idle (lines
1141-1153): the web server is serviced first (ServiceWeb, line 1147) — req
models a /start request arriving in that service window, as its (millis(),
slew-duration) pair — and only afterwards are both ESCs held at MIN (line
1150); a start accepted here therefore has its slew-to-base undone by
HoldEscMin in the same pass, and the run begins with both commands at
PulseMinUs. When running (Wi-Fi off, so no requests): ControlStepPID with
(rawA, nowA), then TrySample with (rawB, nowB), then the end-of-run check at
nowC, which parks the outputs without slewing and publishes the sample
buffer. The check `(int32)(millis()-ExperimentEndMs) >= 0` is modelled as
`EndMs ≤ nowC`, exact while nowC is within 2^31 ms of the deadline. -/
def LoopStep (st : SysState) (req : Option (Nat × Nat)) (rawA : Int) (nowA : Nat)
    (rawB : Int) (nowB nowC : Nat) : SysState :=
  if st.running = false then
    let st1 := match req with
      | some r => (HandleStart st r.1 r.2).1
      | none => st
    { st1 with ctrl := HoldEscMin st1.ctrl }
  else
    let st1 := { st with ctrl := ControlStepPID st.cfg st.ctrl rawA nowA }
    let st2 := TrySample st1 rawB nowB
    if st2.ExperimentEndMs ≤ nowC then
      { st2 with running := false, ctrl := HoldEscMin st2.ctrl, SamplesReady := true }
    else st2

/-- The inputs of one loop() iteration: an optional /start request serviced
in the idle branch, and the analogRead/millis values. -/
structure LoopInp where
  req : Option (Nat × Nat)
  rawA : Int
  nowA : Nat
  rawB : Int
  nowB : Nat
  nowC : Nat
  deriving Repr, DecidableEq

/-- Iterated loop() over a list of per-iteration inputs. -/
def LoopRun (st : SysState) : List LoopInp → SysState
  | [] => st
  | i :: rest => LoopRun (LoopStep st i.req i.rawA i.nowA i.rawB i.nowB i.nowC) rest

/-- Every state the iterated loop passes through, the initial one included. -/
def LoopStates (st : SysState) : List LoopInp → List SysState
  | [] => [st]
  | i :: rest => st :: LoopStates (LoopStep st i.req i.rawA i.nowA i.rawB i.nowB i.nowC) rest

/-- Iterated TrySample over a list of (analogRead, millis) inputs, as the
running loop performs between control steps. -/
def TrySampleFold (st : SysState) : List (Int × Nat) → SysState
  | [] => st
  | p :: rest => TrySampleFold (TrySample st p.1 p.2) rest

namespace V1

/-!
Embedding of the standalone sketch `src/PracticeV2.ino`. Its tuning
constants coincide with the web-UI variant (PulseMinUs 1100, PulseMaxUs
1500, BaseUs 1250, DeltaMaxUs 120, SlewStepUs 4, PotCenter 660,
IntegralMaxUs 80, PotAlpha = DAlpha = 0.2, LoopDtMs 10), so the parent
namespace constants are reused.
-/

/-- The controller globals of src/PracticeV2.ino (lines 74-82). -/
structure St where
  IntUs : ℚ
  DerivFilt : ℚ
  PotFiltered : Int
  LastPotFilt : Int
  LastTsMs : Nat
  CmdUs1 : Int
  CmdUs2 : Int
  deriving Repr, DecidableEq

/-- Step time dt (lines 163-164): LoopDtMs ms on the very first step, else elapsed
ms, floored at 0.001 s. -/
def dtOf (s : St) (now : Nat) : ℚ :=
  let dt0 : ℚ := if s.LastTsMs = 0 then (LoopDtMs : ℚ) * (1/1000)
    else ((now - s.LastTsMs : Nat) : ℚ) * (1/1000)
  if dt0 < 1/1000 then 1/1000 else dt0

/-- Filter update `PotFiltered = (int)roundf(PotFiltered + PotAlpha * (raw - PotFiltered));`
(line 169). -/
def potFilteredNext (s : St) (raw : Int) : Int :=
  roundHalfAway ((s.PotFiltered : ℚ) + PotAlpha * ((raw : ℚ) - (s.PotFiltered : ℚ)))

/-- Error computation (lines 172-173). -/
def errOf (cfg : Config) (pf : Int) : Int :=
  if cfg.InvertDirection then -(PotCenter - pf) else PotCenter - pf

/-- Filtered measurement derivative (lines 179-181). -/
def derivFiltNext (s : St) (raw : Int) (now : Nat) : ℚ :=
  let pf := potFilteredNext s raw
  (1 - DAlpha) * s.DerivFilt + DAlpha * (((pf - s.LastPotFilt : Int) : ℚ) / dtOf s now)

/-- Partial output uNoI = pUs + dUs (lines 176-187): the partial output before the
integral term. -/
def uNoIOf (cfg : Config) (s : St) (raw : Int) (now : Nat) : ℚ :=
  cfg.KpUsPerCount * (errOf cfg (potFilteredNext s raw) : ℚ)
    + (-cfg.KdUsPerCountPerSec * derivFiltNext s raw now)

/-- Conditional integration with anti-windup (lines 189-196): integrate only
while `fabs(uNoI) < DeltaMaxUs - 5`, then clamp to ±IntegralMaxUs. -/
def intUsNext (cfg : Config) (s : St) (raw : Int) (now : Nat) : ℚ :=
  if |uNoIOf cfg s raw now| < (DeltaMaxUs : ℚ) - 5 then
    clampMagQ
      (s.IntUs + cfg.KiUsPerCountSec * (errOf cfg (potFilteredNext s raw) : ℚ) * dtOf s now)
      (IntegralMaxUs : ℚ)
  else s.IntUs

/-- Source ControlStepPID of src/PracticeV2.ino (lines 160-220). -/
def ControlStepPID (cfg : Config) (s : St) (raw : Int) (now : Nat) : St :=
  let pf := potFilteredNext s raw
  let deriv := derivFiltNext s raw now
  let int2 := intUsNext cfg s raw now
  let deltaUs := ClampInt (roundHalfAway (uNoIOf cfg s raw now + int2))
    (-DeltaMaxUs) DeltaMaxUs
  let t1 := ClampInt (BaseUs + deltaUs) PulseMinUs PulseMaxUs
  let t2 := ClampInt (BaseUs - deltaUs) PulseMinUs PulseMaxUs
  { IntUs := int2, DerivFilt := deriv, PotFiltered := pf, LastPotFilt := pf, LastTsMs := now,
    CmdUs1 := s.CmdUs1 + ClampInt (t1 - s.CmdUs1) (-SlewStepUs) SlewStepUs,
    CmdUs2 := s.CmdUs2 + ClampInt (t2 - s.CmdUs2) (-SlewStepUs) SlewStepUs }

/-- Controller-state initialisation at the end of `setup()`
(src/PracticeV2.ino lines 253-258), right after arming and the slew to base:
the pot filter is seeded to the setpoint, the PID accumulators are zeroed and
both commands sit at BaseUs. nowMs is the millis() read of line 258. -/
def setupState (nowMs : Nat) : St :=
  { IntUs := 0, DerivFilt := 0, PotFiltered := PotCenter, LastPotFilt := PotCenter,
    LastTsMs := nowMs, CmdUs1 := BaseUs, CmdUs2 := BaseUs }

end V1

/-! ### Shared concrete states used by counterexamples and witnesses -/

/-- A tuning configuration reachable through /set: Kp = 1 (within [0,5]),
the other gains at their defaults. -/
def cfgUnit : Config :=
  { KpUsPerCount := 1, KiUsPerCountSec := 1/10, KdUsPerCountPerSec := 1/10,
    InvertDirection := false }

/-- Controller state settled at the setpoint with both commands at BaseUs. -/
def ctrlAtBase : CtrlState :=
  { IntUs := 0, DerivFilt := 0, PotFiltered := 660, LastTsMs := 0, lastY := 660,
    CmdUs1 := 1250, CmdUs2 := 1250 }

/-- Controller state right after power-on: filter not yet seeded. -/
def ctrlSeed0 : CtrlState :=
  { IntUs := 0, DerivFilt := 0, PotFiltered := 0, LastTsMs := 0, lastY := 0,
    CmdUs1 := 1250, CmdUs2 := 1250 }

/-- A mid-run system state: experiment running, commands at base, next
sample far in the future. -/
def stRun : SysState :=
  { running := true, cfg := defaultConfig, ctrl := ctrlAtBase, samples := [],
    SamplesReady := false, ExperimentStartMs := 0, ExperimentEndMs := 20380,
    NextSampleAtMs := 1000000 }

/-- Mid-run state with sampling due immediately. -/
def stRunW : SysState :=
  { running := true, cfg := defaultConfig, ctrl := ctrlAtBase, samples := [],
    SamplesReady := false, ExperimentStartMs := 0, ExperimentEndMs := 20380,
    NextSampleAtMs := 0 }

/-- An idle state after a previous run: the pot filter holds 700 from that
run, commands are parked at MIN. -/
def stIdle : SysState :=
  { running := false, cfg := defaultConfig,
    ctrl := { IntUs := 0, DerivFilt := 0, PotFiltered := 700, LastTsMs := 0, lastY := 700, CmdUs1 := 1100, CmdUs2 := 1100 },
    samples := [], SamplesReady := false, ExperimentStartMs := 0,
    ExperimentEndMs := 0, NextSampleAtMs := 0 }

/-- A standalone-sketch controller state near the lower end of the pot
range, derivative settled. -/
def v1St : V1.St :=
  { IntUs := 7, DerivFilt := 0, PotFiltered := 400, LastPotFilt := 400,
    LastTsMs := 0, CmdUs1 := 1250, CmdUs2 := 1250 }

/-! ### Helper lemmas -/

theorem ClampInt_mag (d l : Int) (hl : 0 ≤ l) :
    -l ≤ ClampInt d (-l) l ∧ ClampInt d (-l) l ≤ l := by
  unfold ClampInt; split_ifs <;> omega

theorem ClampInt_eq_self (v lo hi : Int) (h1 : lo ≤ v) (h2 : v ≤ hi) :
    ClampInt v lo hi = v := by
  unfold ClampInt; split_ifs <;> omega

theorem ClampInt_neg (d l : Int) (hl : 0 ≤ l) :
    ClampInt (-d) (-l) l = -ClampInt d (-l) l := by
  unfold ClampInt; split_ifs <;> omega

theorem clampMagQ_bounds (v lim : ℚ) (h : 0 ≤ lim) :
    -lim ≤ clampMagQ v lim ∧ clampMagQ v lim ≤ lim := by
  unfold clampMagQ; split_ifs <;> constructor <;> linarith

theorem clampMagQ_abs (v lim : ℚ) (h : 0 ≤ lim) : |clampMagQ v lim| ≤ lim := by
  rw [abs_le]; exact clampMagQ_bounds v lim h

theorem cTrunc_intCast (n : Int) : cTrunc (n : ℚ) = n := by
  unfold cTrunc
  split_ifs <;> simp

theorem cTrunc_bounds (q : ℚ) (l : Int) (h1 : -(l : ℚ) ≤ q) (h2 : q ≤ (l : ℚ)) :
    -l ≤ cTrunc q ∧ cTrunc q ≤ l := by
  have hl : (0 : ℚ) ≤ (l : ℚ) := by linarith
  have hl2 : (0 : Int) ≤ l := by exact_mod_cast hl
  unfold cTrunc
  split_ifs with h0
  · constructor
    · have : (0 : Int) ≤ ⌊q⌋ := Int.floor_nonneg.mpr h0
      omega
    · have := Int.floor_le_floor h2
      simpa using this
  · constructor
    · have := Int.ceil_le_ceil h1
      have hc : ⌈(-(l : ℚ))⌉ = -l := by
        rw [show (-(l : ℚ)) = ((-l : Int) : ℚ) by push_cast; ring, Int.ceil_intCast]
      omega
    · have : ⌈q⌉ ≤ (0 : Int) := by
        refine Int.ceil_le.mpr ?_
        push_cast
        linarith
      omega

theorem constrainQ_bounds (v lo hi : ℚ) (h : lo ≤ hi) :
    lo ≤ constrainQ v lo hi ∧ constrainQ v lo hi ≤ hi := by
  unfold constrainQ; split_ifs <;> constructor <;> linarith

theorem constrainQ_ne (v lo hi : ℚ) (h : lo ≤ hi) (hv : v < lo ∨ hi < v) :
    constrainQ v lo hi ≠ v := by
  unfold constrainQ; split_ifs with a b <;> rcases hv with hv | hv <;> intro e <;> linarith

theorem SlewIter_self (c : Int) : SlewIter c c = c := by
  unfold SlewIter ClampInt SlewStepUs; split_ifs <;> omega

theorem SlewIter_mag (c t : Int) : |SlewIter c t - c| ≤ SlewStepUs := by
  unfold SlewIter ClampInt SlewStepUs
  rw [abs_le]
  constructor <;> (split_ifs <;> omega)

theorem SlewIter_progress (c t : Int) (h : c ≠ t) :
    (t - SlewIter c t).natAbs < (t - c).natAbs := by
  unfold SlewIter ClampInt SlewStepUs; split_ifs <;> omega

theorem SlewIter_progress_le (c t : Int) :
    (t - SlewIter c t).natAbs ≤ (t - c).natAbs := by
  unfold SlewIter ClampInt SlewStepUs; split_ifs <;> omega

theorem SlewBothToAux_converges :
    ∀ (fuel : Nat) (c1 c2 t1 t2 : Int),
      (t1 - c1).natAbs + (t2 - c2).natAbs ≤ fuel →
      SlewBothToAux fuel (c1, c2) (t1, t2) = (t1, t2) := by
  intro fuel
  induction fuel with
  | zero =>
    intro c1 c2 t1 t2 h
    have h1 : c1 = t1 := by omega
    have h2 : c2 = t2 := by omega
    simp [SlewBothToAux, h1, h2]
  | succ n ih =>
    intro c1 c2 t1 t2 h
    unfold SlewBothToAux
    split_ifs with he
    · simp [he.1, he.2]
    · apply ih
      rcases Decidable.em (c1 = t1) with h1 | h1
      · have h2 : c2 ≠ t2 := fun e => he ⟨h1, e⟩
        have := SlewIter_progress c2 t2 h2
        rw [h1, SlewIter_self]
        omega
      · have := SlewIter_progress c1 t1 h1
        have h2 := SlewIter_progress_le c2 t2
        omega

theorem SlewBothTo_base (c1 c2 : Int) : SlewBothTo c1 c2 BaseUs BaseUs = (BaseUs, BaseUs) := by
  unfold SlewBothTo
  have hb : ClampInt BaseUs PulseMinUs PulseMaxUs = BaseUs := by
    unfold ClampInt BaseUs PulseMinUs PulseMaxUs; split_ifs <;> omega
  rw [hb]
  exact SlewBothToAux_converges _ _ _ _ _ le_rfl

theorem TrySample_ctrl (st : SysState) (raw : Int) (now : Nat) :
    (TrySample st raw now).ctrl = st.ctrl := by
  unfold TrySample; split_ifs <;> rfl

theorem TrySample_running (st : SysState) (raw : Int) (now : Nat) :
    (TrySample st raw now).running = st.running := by
  unfold TrySample; split_ifs <;> rfl

theorem TrySample_EndMs (st : SysState) (raw : Int) (now : Nat) :
    (TrySample st raw now).ExperimentEndMs = st.ExperimentEndMs := by
  unfold TrySample; split_ifs <;> rfl

theorem TrySample_StartMs (st : SysState) (raw : Int) (now : Nat) :
    (TrySample st raw now).ExperimentStartMs = st.ExperimentStartMs := by
  unfold TrySample; split_ifs <;> rfl

theorem TrySample_cfg (st : SysState) (raw : Int) (now : Nat) :
    (TrySample st raw now).cfg = st.cfg := by
  unfold TrySample; split_ifs <;> rfl

theorem TrySample_SamplesReady (st : SysState) (raw : Int) (now : Nat) :
    (TrySample st raw now).SamplesReady = st.SamplesReady := by
  unfold TrySample; split_ifs <;> rfl

/-- TrySample either leaves the state untouched or appends exactly one
sample and advances the 50 ms schedule. -/
theorem TrySample_spec (st : SysState) (raw : Int) (now : Nat) :
    TrySample st raw now = st ∨
    (st.running = true ∧ st.NextSampleAtMs ≤ now ∧ st.samples.length < MaxSamples ∧
      TrySample st raw now =
        { st with samples := st.samples ++ [sampleOf st raw now], NextSampleAtMs := st.NextSampleAtMs + SamplePeriodMs }) := by
  unfold TrySample
  split_ifs with h1 h2 h3
  · exact Or.inl rfl
  · exact Or.inl rfl
  · exact Or.inl rfl
  · refine Or.inr ⟨?_, by omega, by omega, rfl⟩
    cases hb : st.running
    · exact absurd hb h1
    · rfl

/-- The out-of-range safety branch of ControlStepPID (lines 643-649). -/
theorem ControlStepPID_outOfRange (cfg : Config) (s : CtrlState) (raw : Int) (now : Nat)
    (h : raw < PotMinSafe ∨ PotMaxSafe < raw) :
    ControlStepPID cfg s raw now = HoldEscMin s := by
  unfold ControlStepPID; rw [if_pos h]

/-- An in-range control step moves each command by a slew-clamped step. -/
theorem ControlStepPID_inRange_cmds (cfg : Config) (s : CtrlState) (raw : Int) (now : Nat)
    (h : ¬(raw < PotMinSafe ∨ PotMaxSafe < raw)) :
    |(ControlStepPID cfg s raw now).CmdUs1 - s.CmdUs1| ≤ SlewStepUs ∧
    |(ControlStepPID cfg s raw now).CmdUs2 - s.CmdUs2| ≤ SlewStepUs := by
  have h4 : (0 : Int) ≤ SlewStepUs := by unfold SlewStepUs; omega
  simp only [ControlStepPID, if_neg h, add_sub_cancel_left]
  constructor <;> (rw [abs_le]; exact ClampInt_mag _ _ h4)

/-- A control step never changes the integral bound: the web-UI controller
clamps after every in-range update and keeps the old value otherwise. -/
theorem ControlStepPID_IntUs_bound (cfg : Config) (s : CtrlState) (raw : Int) (now : Nat)
    (h : |s.IntUs| ≤ (IntegralMaxUs : ℚ)) :
    |(ControlStepPID cfg s raw now).IntUs| ≤ (IntegralMaxUs : ℚ) := by
  by_cases hr : raw < PotMinSafe ∨ PotMaxSafe < raw
  · rw [ControlStepPID_outOfRange _ _ _ _ hr]
    simpa [HoldEscMin] using h
  · simp only [ControlStepPID, if_neg hr, intUsNext]
    exact clampMagQ_abs _ _ (by norm_num [IntegralMaxUs])

theorem V1_ControlStepPID_IntUs_bound (cfg : Config) (s : V1.St) (raw : Int) (now : Nat)
    (h : |s.IntUs| ≤ (IntegralMaxUs : ℚ)) :
    |(V1.ControlStepPID cfg s raw now).IntUs| ≤ (IntegralMaxUs : ℚ) := by
  simp only [V1.ControlStepPID, V1.intUsNext]
  split_ifs with hg
  · exact clampMagQ_abs _ _ (by norm_num [IntegralMaxUs])
  · exact h

/-- A /start leaves the integral within bounds: it zeroes it when accepted
and changes nothing when rejected. -/
theorem HandleStart_IntUs_bound (st : SysState) (now slewMs : Nat)
    (h : |st.ctrl.IntUs| ≤ (IntegralMaxUs : ℚ)) :
    |(HandleStart st now slewMs).1.ctrl.IntUs| ≤ (IntegralMaxUs : ℚ) := by
  unfold HandleStart
  split_ifs with hr
  · exact h
  · have h0 : |(0 : ℚ)| ≤ (IntegralMaxUs : ℚ) := by norm_num [IntegralMaxUs]
    simpa using h0

theorem LoopStep_IntUs_bound (st : SysState) (i : LoopInp)
    (h : |st.ctrl.IntUs| ≤ (IntegralMaxUs : ℚ)) :
    |(LoopStep st i.req i.rawA i.nowA i.rawB i.nowB i.nowC).ctrl.IntUs| ≤ (IntegralMaxUs : ℚ) := by
  unfold LoopStep
  split_ifs with h1
  · rcases hr : i.req with _ | r
    · simpa [HoldEscMin] using h
    · have := HandleStart_IntUs_bound st r.1 r.2 h
      simpa [HoldEscMin] using this
  · simp only [TrySample_ctrl]
    have hc := ControlStepPID_IntUs_bound st.cfg st.ctrl i.rawA i.nowA h
    split_ifs with h2
    · simpa [HoldEscMin, TrySample_ctrl] using hc
    · simpa [TrySample_ctrl] using hc

/-- Any idle loop pass — whether or not a /start was serviced in it — ends
with both commands held at PulseMinUs (line 1150 runs unconditionally after
ServiceWeb). -/
theorem LoopStep_idle_parked (st : SysState) (req : Option (Nat × Nat)) (rawA : Int)
    (nowA : Nat) (rawB : Int) (nowB nowC : Nat) (h : st.running = false) :
    (LoopStep st req rawA nowA rawB nowB nowC).ctrl.CmdUs1 = PulseMinUs ∧
    (LoopStep st req rawA nowA rawB nowB nowC).ctrl.CmdUs2 = PulseMinUs := by
  unfold LoopStep
  rw [if_pos h]
  cases req <;> simp [HoldEscMin]

theorem LoopStates_IntUs_bound (ins : List LoopInp) :
    ∀ st : SysState, |st.ctrl.IntUs| ≤ (IntegralMaxUs : ℚ) →
      ∀ x ∈ LoopStates st ins, |x.ctrl.IntUs| ≤ (IntegralMaxUs : ℚ) := by
  induction ins with
  | nil =>
    intro st h x hx
    simp only [LoopStates, List.mem_singleton] at hx
    exact hx ▸ h
  | cons i rest ih =>
    intro st h x hx
    simp only [LoopStates, List.mem_cons] at hx
    rcases hx with rfl | hx
    · exact h
    · exact ih _ (LoopStep_IntUs_bound st i h) x hx

theorem LoopRun_mem_LoopStates (ins : List LoopInp) :
    ∀ st, LoopRun st ins ∈ LoopStates st ins := by
  induction ins with
  | nil => intro st; simp [LoopRun, LoopStates]
  | cons i rest ih =>
    intro st
    simp only [LoopRun, LoopStates, List.mem_cons]
    exact Or.inr (ih _)

/-- While running and before the duration elapses, a loop iteration's state
change on the controller is exactly the control step (requests are not
serviced while running). -/
theorem LoopStep_running_noStop (st : SysState) (req : Option (Nat × Nat)) (rawA : Int)
    (nowA : Nat) (rawB : Int) (nowB nowC : Nat)
    (h1 : st.running = true) (h3 : nowC < st.ExperimentEndMs) :
    (LoopStep st req rawA nowA rawB nowB nowC).ctrl = ControlStepPID st.cfg st.ctrl rawA nowA := by
  unfold LoopStep
  rw [if_neg (by simp [h1])]
  simp only [TrySample_EndMs, TrySample_ctrl]
  rw [if_neg (by omega)]
  rw [TrySample_ctrl]

/-- Core arithmetic of the differential symmetry: with the delta bounded by
DeltaMaxUs, the working-range clamps are inactive, the two slew steps are
exact opposites, and the command sum is preserved. -/
theorem sum_preserved_core (c1 c2 d : Int)
    (hd : -DeltaMaxUs ≤ d ∧ d ≤ DeltaMaxUs)
    (hs : c1 + c2 = 2 * BaseUs) :
    c1 + ClampInt (ClampInt (BaseUs + d) PulseMinUs PulseMaxUs - c1) (-SlewStepUs) SlewStepUs +
      (c2 + ClampInt (ClampInt (BaseUs - d) PulseMinUs PulseMaxUs - c2) (-SlewStepUs) SlewStepUs) =
      2 * BaseUs := by
  simp only [ClampInt, BaseUs, PulseMinUs, PulseMaxUs, SlewStepUs, DeltaMaxUs] at *
  split_ifs <;> omega

theorem ControlStepPID_sum (cfg : Config) (s : CtrlState) (raw : Int) (now : Nat)
    (h : ¬(raw < PotMinSafe ∨ PotMaxSafe < raw))
    (hs : s.CmdUs1 + s.CmdUs2 = 2 * BaseUs) :
    (ControlStepPID cfg s raw now).CmdUs1 + (ControlStepPID cfg s raw now).CmdUs2 =
      2 * BaseUs := by
  have hD : (0 : ℚ) ≤ (DeltaMaxUs : ℚ) := by norm_num [DeltaMaxUs]
  simp only [ControlStepPID, if_neg h]
  apply sum_preserved_core
  · refine cTrunc_bounds _ DeltaMaxUs ?_ ?_
    · exact (clampMagQ_bounds _ _ hD).1
    · exact (clampMagQ_bounds _ _ hD).2
  · exact hs

/-- Core arithmetic of the post-start ramp: from a command parked at
PulseMinUs, both targets BaseUs ± d (|d| ≤ DeltaMaxUs) lie at least 30 µs
above, so the slew-clamped step is exactly +SlewStepUs on both channels. -/
theorem ramp_core (d : Int) (hd : -DeltaMaxUs ≤ d ∧ d ≤ DeltaMaxUs) :
    PulseMinUs + ClampInt (ClampInt (BaseUs + d) PulseMinUs PulseMaxUs - PulseMinUs)
        (-SlewStepUs) SlewStepUs = PulseMinUs + SlewStepUs ∧
    PulseMinUs + ClampInt (ClampInt (BaseUs - d) PulseMinUs PulseMaxUs - PulseMinUs)
        (-SlewStepUs) SlewStepUs = PulseMinUs + SlewStepUs := by
  simp only [ClampInt, BaseUs, PulseMinUs, PulseMaxUs, SlewStepUs, DeltaMaxUs] at *
  split_ifs <;> omega

/-- An in-range control step taken with both commands parked at PulseMinUs
(as at the real start of a run) raises each command by exactly SlewStepUs:
the commands ramp gradually and their sum is far from 2·BaseUs. -/
theorem ControlStepPID_ramp_from_min (cfg : Config) (s : CtrlState) (raw : Int) (now : Nat)
    (h : ¬(raw < PotMinSafe ∨ PotMaxSafe < raw))
    (h1 : s.CmdUs1 = PulseMinUs) (h2 : s.CmdUs2 = PulseMinUs) :
    (ControlStepPID cfg s raw now).CmdUs1 = PulseMinUs + SlewStepUs ∧
    (ControlStepPID cfg s raw now).CmdUs2 = PulseMinUs + SlewStepUs := by
  have hD : (0 : ℚ) ≤ (DeltaMaxUs : ℚ) := by norm_num [DeltaMaxUs]
  simp only [ControlStepPID, if_neg h, h1, h2]
  constructor
  · refine (ramp_core _ ?_).1
    exact cTrunc_bounds _ DeltaMaxUs (clampMagQ_bounds _ _ hD).1 (clampMagQ_bounds _ _ hD).2
  · refine (ramp_core _ ?_).2
    exact cTrunc_bounds _ DeltaMaxUs (clampMagQ_bounds _ _ hD).1 (clampMagQ_bounds _ _ hD).2

/-! ### Claim theorems -/

/-- Claim C1: in every loop() iteration, in either phase, a raw measurement
outside [PotMinSafe, PotMaxSafe] leaves both actuator commands forced to
PulseMinUs within that iteration — directly, not through the slew limiter —
and the controller state (integral accumulator, filtered derivative, last
timestamp) is unchanged by the step. -/
theorem C1_safety_override (st : SysState) (rawA : Int) (nowA : Nat) (rawB : Int)
    (nowB nowC : Nat) (h : rawA < PotMinSafe ∨ PotMaxSafe < rawA) :
    (LoopStep st none rawA nowA rawB nowB nowC).ctrl.CmdUs1 = PulseMinUs ∧
    (LoopStep st none rawA nowA rawB nowB nowC).ctrl.CmdUs2 = PulseMinUs ∧
    (LoopStep st none rawA nowA rawB nowB nowC).ctrl.IntUs = st.ctrl.IntUs ∧
    (LoopStep st none rawA nowA rawB nowB nowC).ctrl.DerivFilt = st.ctrl.DerivFilt ∧
    (LoopStep st none rawA nowA rawB nowB nowC).ctrl.LastTsMs = st.ctrl.LastTsMs := by
  unfold LoopStep
  by_cases h1 : st.running = false
  · rw [if_pos h1]
    simp [HoldEscMin]
  · rw [if_neg h1]
    have hc : ControlStepPID st.cfg st.ctrl rawA nowA = HoldEscMin st.ctrl :=
      ControlStepPID_outOfRange _ _ _ _ h
    simp only [hc]
    split_ifs with h2 <;> simp [TrySample_ctrl, HoldEscMin]

/-- Witness for C1 at a concrete mid-run state and raw = 1000. -/
theorem C1_safety_override_witness :
    ((1000 : Int) < PotMinSafe ∨ PotMaxSafe < 1000) ∧
    ((LoopStep stRun none 1000 5 660 6 7).ctrl.CmdUs1 = PulseMinUs ∧
     (LoopStep stRun none 1000 5 660 6 7).ctrl.CmdUs2 = PulseMinUs ∧
     (LoopStep stRun none 1000 5 660 6 7).ctrl.IntUs = stRun.ctrl.IntUs ∧
     (LoopStep stRun none 1000 5 660 6 7).ctrl.DerivFilt = stRun.ctrl.DerivFilt ∧
     (LoopStep stRun none 1000 5 660 6 7).ctrl.LastTsMs = stRun.ctrl.LastTsMs) :=
  ⟨Or.inr (by decide), C1_safety_override stRun 1000 5 660 6 7 (Or.inr (by decide))⟩

/-- Claim C2 is false for the controller the claim cites
(src/PracticeV2/PracticeV2.ino): at this concrete input the un-integrated
partial output P + D equals 260, far beyond DeltaMaxUs - 5 = 115, yet the
control step still changes the integral accumulator (to 0.26). -/
theorem C2_anti_windup_cex :
    (DeltaMaxUs : ℚ) - 5 ≤ |uPDOf cfgUnit ctrlSeed0 400 5| ∧
    (ControlStepPID cfgUnit ctrlSeed0 400 5).IntUs ≠ ctrlSeed0.IntUs := by
  have h : uPDOf cfgUnit ctrlSeed0 400 5 = 260 := by
    norm_num [uPDOf, errOf, potFilteredNext, potSeed, cTrunc, derivFiltNext, lastYSeed,
      dtSecOf, PotAlpha, DAlpha, PotCenter, LoopDtMs, cfgUnit, ctrlSeed0]
  have h2 : (ControlStepPID cfgUnit ctrlSeed0 400 5).IntUs = 13/50 := by
    norm_num [ControlStepPID, intUsNext, clampMagQ, errOf, potFilteredNext, potSeed, cTrunc,
      derivFiltNext, lastYSeed, dtSecOf, PotAlpha, DAlpha, PotCenter, PotMinSafe, PotMaxSafe,
      LoopDtMs, IntegralMaxUs, DeltaMaxUs, cfgUnit, ctrlSeed0]
  constructor
  · rw [h, abs_of_nonneg (by norm_num : (0 : ℚ) ≤ 260)]
    norm_num [DeltaMaxUs]
  · rw [h2]
    norm_num [ctrlSeed0]

/-- Claim C2 (amended): the stated anti-windup gate exists only in the
standalone sketch src/PracticeV2.ino, where the integral is left unchanged
whenever |P + D| is not below DeltaMaxUs - 5; the web-UI controller of
src/PracticeV2/PracticeV2.ino instead updates the integral unconditionally
on every in-range step (clamping it to ±IntegralMaxUs afterwards). -/
theorem C2_anti_windup_amended (cfg : Config) (s : V1.St) (raw : Int) (now : Nat)
    (cfg2 : Config) (s2 : CtrlState) (raw2 : Int) (now2 : Nat)
    (h : ¬(|V1.uNoIOf cfg s raw now| < (DeltaMaxUs : ℚ) - 5))
    (h2 : ¬(raw2 < PotMinSafe ∨ PotMaxSafe < raw2)) :
    (V1.ControlStepPID cfg s raw now).IntUs = s.IntUs ∧
    (ControlStepPID cfg2 s2 raw2 now2).IntUs =
      clampMagQ
        (s2.IntUs + cfg2.KiUsPerCountSec * (errOf cfg2 (potFilteredNext s2 raw2) : ℚ) * dtSecOf s2 now2)
        (IntegralMaxUs : ℚ) := by
  constructor
  · simp only [V1.ControlStepPID, V1.intUsNext, if_neg h]
  · simp only [ControlStepPID, if_neg h2, intUsNext]

/-- Witness for C2 (amended): a saturated standalone step leaves the
integral at 7; an in-range web-UI step performs the unconditional update. -/
theorem C2_anti_windup_amended_witness :
    (V1.ControlStepPID cfgUnit v1St 400 5).IntUs = v1St.IntUs ∧
    (ControlStepPID cfgUnit ctrlAtBase 660 5).IntUs =
      clampMagQ
        (ctrlAtBase.IntUs + cfgUnit.KiUsPerCountSec * (errOf cfgUnit (potFilteredNext ctrlAtBase 660) : ℚ) * dtSecOf ctrlAtBase 5)
        (IntegralMaxUs : ℚ) :=
  C2_anti_windup_amended cfgUnit v1St 400 5 cfgUnit ctrlAtBase 660 5
    (by
      have h : V1.uNoIOf cfgUnit v1St 400 5 = 260 := by
        norm_num [V1.uNoIOf, V1.errOf, V1.potFilteredNext, V1.derivFiltNext, V1.dtOf,
          roundHalfAway, PotAlpha, DAlpha, PotCenter, LoopDtMs, cfgUnit, v1St]
      rw [h, abs_of_nonneg (by norm_num : (0 : ℚ) ≤ 260)]
      norm_num [DeltaMaxUs])
    (by decide)

/-- Claim C3 is false as stated: at a mid-run step that stays Running (not
the Running→Idle hard stop), the safety override jumps command 1 from 1250
to 1100, a change of 150 > SlewStepUs. -/
theorem C3_slew_cex :
    (LoopStep stRun none 1000 5 660 6 7).running = true ∧
    (LoopStep stRun none 1000 5 660 6 7).ctrl.CmdUs1 - stRun.ctrl.CmdUs1 = -150 ∧
    SlewStepUs < |(LoopStep stRun none 1000 5 660 6 7).ctrl.CmdUs1 - stRun.ctrl.CmdUs1| := by
  refine ⟨by decide, by decide, by decide⟩

/-- Claim C3 (amended): the slew invariant |Δcmd| ≤ SlewStepUs holds on
every in-range running step that does not hit the end-of-run stop, every
write of the pre-run slew loop moves a command by at most SlewStepUs, and
every idle pass ends with both outputs held at PulseMinUs; but besides the
designated Running→Idle hard stop there are two further exceptions that
bypass the slew limiter: the safety override, and the accepted-start pass,
where the idle branch's unconditional HoldEscMin (line 1150) follows
HandleStart's slew-to-base (line 1008) inside the same loop pass and snaps
both commands from BaseUs straight back to PulseMinUs. -/
theorem C3_slew_amended (st : SysState) (req : Option (Nat × Nat)) (rawA : Int) (nowA : Nat)
    (rawB : Int) (nowB nowC : Nat)
    (st2 : SysState) (req2 : Option (Nat × Nat)) (r2 : Int) (n2 : Nat) (r3 : Int) (n3 n4 : Nat)
    (st3 : SysState) (now slewMs : Nat) (r4 : Int) (n5 : Nat) (r5 : Int) (n6 n7 : Nat)
    (c t : Int)
    (h1 : st.running = true)
    (h2 : ¬(rawA < PotMinSafe ∨ PotMaxSafe < rawA))
    (h3 : nowC < st.ExperimentEndMs)
    (h4 : st2.running = false)
    (h5 : st3.running = false) :
    (|(LoopStep st req rawA nowA rawB nowB nowC).ctrl.CmdUs1 - st.ctrl.CmdUs1| ≤ SlewStepUs ∧
     |(LoopStep st req rawA nowA rawB nowB nowC).ctrl.CmdUs2 - st.ctrl.CmdUs2| ≤ SlewStepUs) ∧
    ((LoopStep st2 req2 r2 n2 r3 n3 n4).ctrl.CmdUs1 = PulseMinUs ∧
     (LoopStep st2 req2 r2 n2 r3 n3 n4).ctrl.CmdUs2 = PulseMinUs) ∧
    ((HandleStart st3 now slewMs).1.ctrl.CmdUs1 = BaseUs ∧
     (HandleStart st3 now slewMs).1.ctrl.CmdUs2 = BaseUs ∧
     (LoopStep st3 (some (now, slewMs)) r4 n5 r5 n6 n7).running = true ∧
     (LoopStep st3 (some (now, slewMs)) r4 n5 r5 n6 n7).ctrl.CmdUs1 = PulseMinUs ∧
     (LoopStep st3 (some (now, slewMs)) r4 n5 r5 n6 n7).ctrl.CmdUs2 = PulseMinUs) ∧
    |SlewIter c t - c| ≤ SlewStepUs := by
  refine ⟨?_, LoopStep_idle_parked st2 req2 r2 n2 r3 n3 n4 h4,
    ⟨?_, ?_, ?_, (LoopStep_idle_parked st3 (some (now, slewMs)) r4 n5 r5 n6 n7 h5).1,
      (LoopStep_idle_parked st3 (some (now, slewMs)) r4 n5 r5 n6 n7 h5).2⟩,
    SlewIter_mag c t⟩
  · rw [LoopStep_running_noStop st req rawA nowA rawB nowB nowC h1 h3]
    exact ControlStepPID_inRange_cmds st.cfg st.ctrl rawA nowA h2
  · unfold HandleStart
    rw [if_neg (by simp [h5])]
    simp [SlewBothTo_base]
  · unfold HandleStart
    rw [if_neg (by simp [h5])]
    simp [SlewBothTo_base]
  · unfold LoopStep
    rw [if_pos h5]
    dsimp only
    unfold HandleStart
    rw [if_neg (by simp [h5])]

/-- Witness for C3 (amended) at concrete running, idle and accepted-start
steps. -/
theorem C3_slew_amended_witness :
    (|(LoopStep stRun none 660 5 660 6 7).ctrl.CmdUs1 - stRun.ctrl.CmdUs1| ≤ SlewStepUs ∧
     |(LoopStep stRun none 660 5 660 6 7).ctrl.CmdUs2 - stRun.ctrl.CmdUs2| ≤ SlewStepUs) ∧
    ((LoopStep stIdle none 660 8 660 9 10).ctrl.CmdUs1 = PulseMinUs ∧
     (LoopStep stIdle none 660 8 660 9 10).ctrl.CmdUs2 = PulseMinUs) ∧
    ((HandleStart stIdle 0 380).1.ctrl.CmdUs1 = BaseUs ∧
     (HandleStart stIdle 0 380).1.ctrl.CmdUs2 = BaseUs ∧
     (LoopStep stIdle (some (0, 380)) 660 390 660 391 392).running = true ∧
     (LoopStep stIdle (some (0, 380)) 660 390 660 391 392).ctrl.CmdUs1 = PulseMinUs ∧
     (LoopStep stIdle (some (0, 380)) 660 390 660 391 392).ctrl.CmdUs2 = PulseMinUs) ∧
    |SlewIter 1100 1250 - 1100| ≤ SlewStepUs :=
  C3_slew_amended stRun none 660 5 660 6 7 stIdle none 660 8 660 9 10 stIdle 0 380
    660 390 660 391 392 1100 1250 rfl (by decide) (by decide) rfl rfl

/-- Claim C5 is false as stated: after the safety override trips mid-run,
both commands sit at PulseMinUs while the phase is still Running, so the
command sum is 2200, not 2·BaseUs = 2500. -/
theorem C5_diff_symmetry_cex :
    (LoopStep stRun none 1000 5 660 6 7).running = true ∧
    (LoopStep stRun none 1000 5 660 6 7).ctrl.CmdUs1 +
      (LoopStep stRun none 1000 5 660 6 7).ctrl.CmdUs2 ≠ 2 * BaseUs := by
  refine ⟨by decide, by decide⟩

/-- Claim C5 (amended): the differential symmetry CmdUs1 + CmdUs2 = 2·BaseUs
is preserved by every in-range running step on which it already holds, but
it is not established at run start: the idle branch's unconditional
HoldEscMin follows the accepted start's slew-to-base in the same loop pass,
so a run actually begins with both commands at PulseMinUs (sum
2·PulseMinUs = 2200), and the first in-range step from there raises each
command by exactly SlewStepUs (sum 2208 ≠ 2500) — the commands ramp
gradually toward BaseUs ± delta and the symmetry does not hold at every
step of a run; the safety override and idle parking likewise force both
commands to PulseMinUs. -/
theorem C5_diff_symmetry_amended (st : SysState) (req : Option (Nat × Nat)) (rawA : Int)
    (nowA : Nat) (rawB : Int) (nowB nowC : Nat)
    (st2 : SysState) (now slewMs : Nat) (r2 : Int) (n2 : Nat) (r3 : Int) (n3 n4 : Nat)
    (cfg : Config) (s : CtrlState) (raw : Int) (nowP : Nat)
    (h1 : st.running = true)
    (h2 : ¬(rawA < PotMinSafe ∨ PotMaxSafe < rawA))
    (h3 : nowC < st.ExperimentEndMs)
    (h4 : st.ctrl.CmdUs1 + st.ctrl.CmdUs2 = 2 * BaseUs)
    (h5 : st2.running = false)
    (h6 : ¬(raw < PotMinSafe ∨ PotMaxSafe < raw))
    (h7 : s.CmdUs1 = PulseMinUs) (h8 : s.CmdUs2 = PulseMinUs) :
    (LoopStep st req rawA nowA rawB nowB nowC).ctrl.CmdUs1 +
      (LoopStep st req rawA nowA rawB nowB nowC).ctrl.CmdUs2 = 2 * BaseUs ∧
    (LoopStep st2 (some (now, slewMs)) r2 n2 r3 n3 n4).ctrl.CmdUs1 +
      (LoopStep st2 (some (now, slewMs)) r2 n2 r3 n3 n4).ctrl.CmdUs2 = 2 * PulseMinUs ∧
    ((ControlStepPID cfg s raw nowP).CmdUs1 = PulseMinUs + SlewStepUs ∧
     (ControlStepPID cfg s raw nowP).CmdUs2 = PulseMinUs + SlewStepUs ∧
     2 * (PulseMinUs + SlewStepUs) ≠ 2 * BaseUs) := by
  have hpark := LoopStep_idle_parked st2 (some (now, slewMs)) r2 n2 r3 n3 n4 h5
  have hramp := ControlStepPID_ramp_from_min cfg s raw nowP h6 h7 h8
  refine ⟨?_, ?_, hramp.1, hramp.2, by decide⟩
  · rw [LoopStep_running_noStop st req rawA nowA rawB nowB nowC h1 h3]
    exact ControlStepPID_sum st.cfg st.ctrl rawA nowA h2 h4
  · rw [hpark.1, hpark.2]
    ring

/-- Witness for C5 (amended) at a concrete running step, accepted-start pass
and first ramp step. -/
theorem C5_diff_symmetry_amended_witness :
    (LoopStep stRun none 660 5 660 6 7).ctrl.CmdUs1 +
      (LoopStep stRun none 660 5 660 6 7).ctrl.CmdUs2 = 2 * BaseUs ∧
    (LoopStep stIdle (some (0, 380)) 660 390 660 391 392).ctrl.CmdUs1 +
      (LoopStep stIdle (some (0, 380)) 660 390 660 391 392).ctrl.CmdUs2 = 2 * PulseMinUs ∧
    ((ControlStepPID defaultConfig stIdle.ctrl 660 395).CmdUs1 = PulseMinUs + SlewStepUs ∧
     (ControlStepPID defaultConfig stIdle.ctrl 660 395).CmdUs2 = PulseMinUs + SlewStepUs ∧
     2 * (PulseMinUs + SlewStepUs) ≠ 2 * BaseUs) :=
  C5_diff_symmetry_amended stRun none 660 5 660 6 7 stIdle 0 380 660 390 660 391 392
    defaultConfig stIdle.ctrl 660 395
    rfl (by decide) (by decide) (by decide) rfl (by decide) rfl rfl

/-- Claim C4: the integral accumulator satisfies |IntUs| ≤ IntegralMaxUs at
every observation point: along any iterated sequence of loop steps from a
bounded state, after the /start reset (which zeroes it), and after any
standalone-sketch control step from a bounded state. -/
theorem C4_integral_bounded (st st2 : SysState) (ins : List LoopInp) (now slewMs : Nat)
    (cfg : Config) (s : V1.St) (raw : Int) (nowV : Nat)
    (h : |st.ctrl.IntUs| ≤ (IntegralMaxUs : ℚ))
    (h2 : st2.running = false)
    (h3 : |s.IntUs| ≤ (IntegralMaxUs : ℚ)) :
    (∀ x ∈ LoopStates st ins, |x.ctrl.IntUs| ≤ (IntegralMaxUs : ℚ)) ∧
    |(LoopRun st ins).ctrl.IntUs| ≤ (IntegralMaxUs : ℚ) ∧
    (HandleStart st2 now slewMs).1.ctrl.IntUs = 0 ∧
    |(V1.ControlStepPID cfg s raw nowV).IntUs| ≤ (IntegralMaxUs : ℚ) := by
  refine ⟨LoopStates_IntUs_bound ins st h, ?_, ?_, V1_ControlStepPID_IntUs_bound cfg s raw nowV h3⟩
  · exact LoopStates_IntUs_bound ins st h _ (LoopRun_mem_LoopStates ins st)
  · unfold HandleStart
    rw [if_neg (by simp [h2])]

/-- Witness for C4 at a concrete run prefix, start request and standalone
step. -/
theorem C4_integral_bounded_witness :
    |(LoopRun stRun [⟨none, 660, 5, 660, 6, 7⟩]).ctrl.IntUs| ≤ (IntegralMaxUs : ℚ) ∧
    (HandleStart stIdle 0 380).1.ctrl.IntUs = 0 ∧
    |(V1.ControlStepPID cfgUnit v1St 400 5).IntUs| ≤ (IntegralMaxUs : ℚ) :=
  (C4_integral_bounded stRun stIdle [⟨none, 660, 5, 660, 6, 7⟩] 0 380 cfgUnit v1St 400 5
    (by rw [abs_le]; constructor <;> norm_num [stRun, ctrlAtBase, IntegralMaxUs])
    rfl
    (by rw [abs_le]; constructor <;> norm_num [v1St, IntegralMaxUs])).2

/-- Claim C7: a /start request while an experiment is already running is
answered with the distinguishable already-running reply and changes nothing:
the returned state is the input state, so phase, controller state, sample
count and both commands are untouched. -/
theorem C7_duplicate_start (st : SysState) (now slewMs : Nat) (h : st.running = true) :
    HandleStart st now slewMs = (st, StartResp.alreadyRunning) := by
  unfold HandleStart; rw [if_pos h]

/-- Witness for C7 at a concrete running state. -/
theorem C7_duplicate_start_witness :
    HandleStart stRun 5 380 = (stRun, StartResp.alreadyRunning) :=
  C7_duplicate_start stRun 5 380 rfl

/-- Claim C8: a /set write whose requested gain lies outside the documented
safe bounds (Kp in [0,5], Ki in [0,1], Kd in [0,2]) is clamped, not
rejected, and a /state read with no intervening control step reports the
clamped value actually in effect, which differs from the raw request. -/
theorem C8_config_clamp_roundtrip (st : SysState) (vkp vki vkd : ℚ) (adc : Int) (now : Nat)
    (hkp : vkp < 0 ∨ 5 < vkp) (hki : vki < 0 ∨ 1 < vki) (hkd : vkd < 0 ∨ 2 < vkd) :
    (HandleState { st with cfg := HandleSet st.cfg { kp := some vkp, ki := some vki, kd := some vkd, invert := none } } adc now).kp = constrainQ vkp 0 5 ∧
    (HandleState { st with cfg := HandleSet st.cfg { kp := some vkp, ki := some vki, kd := some vkd, invert := none } } adc now).ki = constrainQ vki 0 1 ∧
    (HandleState { st with cfg := HandleSet st.cfg { kp := some vkp, ki := some vki, kd := some vkd, invert := none } } adc now).kd = constrainQ vkd 0 2 ∧
    (HandleState { st with cfg := HandleSet st.cfg { kp := some vkp, ki := some vki, kd := some vkd, invert := none } } adc now).kp ≠ vkp ∧
    (HandleState { st with cfg := HandleSet st.cfg { kp := some vkp, ki := some vki, kd := some vkd, invert := none } } adc now).ki ≠ vki ∧
    (HandleState { st with cfg := HandleSet st.cfg { kp := some vkp, ki := some vki, kd := some vkd, invert := none } } adc now).kd ≠ vkd ∧
    (0 ≤ constrainQ vkp 0 5 ∧ constrainQ vkp 0 5 ≤ 5) ∧
    (0 ≤ constrainQ vki 0 1 ∧ constrainQ vki 0 1 ≤ 1) ∧
    (0 ≤ constrainQ vkd 0 2 ∧ constrainQ vkd 0 2 ≤ 2) := by
  refine ⟨rfl, rfl, rfl, ?_, ?_, ?_, ?_, ?_, ?_⟩
  · exact constrainQ_ne vkp 0 5 (by norm_num) hkp
  · exact constrainQ_ne vki 0 1 (by norm_num) hki
  · exact constrainQ_ne vkd 0 2 (by norm_num) hkd
  · exact constrainQ_bounds vkp 0 5 (by norm_num)
  · exact constrainQ_bounds vki 0 1 (by norm_num)
  · exact constrainQ_bounds vkd 0 2 (by norm_num)

/-- Claim C6 is false for the web-UI firmware: a /start accepted from idle
leaves the filtered measurement at its stale value 700 from the previous
run instead of resetting it to PotCenter = 660. -/
theorem C6_filter_reset_cex :
    (HandleStart stIdle 0 380).2 = StartResp.started ∧
    (HandleStart stIdle 0 380).1.ctrl.PotFiltered = 700 ∧
    (700 : Int) ≠ PotCenter := by
  refine ⟨?_, ?_, by decide⟩
  · simp [HandleStart, stIdle]
  · simp [HandleStart, stIdle]

/-- Claim C6 (amended): only the standalone sketch initialises the filtered
measurement to the setpoint (at the end of setup(), right after arming); in
the web-UI firmware /start does not reset PotFiltered — it persists across
runs — and an in-range control step that finds it at its power-on value 0
seeds it from the current raw measurement, not from the setpoint. -/
theorem C6_filter_reset_amended (st : SysState) (now slewMs : Nat)
    (cfg : Config) (s : CtrlState) (raw : Int) (nowA : Nat) (nowV : Nat)
    (hr : ¬(raw < PotMinSafe ∨ PotMaxSafe < raw)) (h0 : s.PotFiltered = 0) :
    (HandleStart st now slewMs).1.ctrl.PotFiltered = st.ctrl.PotFiltered ∧
    (ControlStepPID cfg s raw nowA).PotFiltered = raw ∧
    (V1.setupState nowV).PotFiltered = PotCenter := by
  refine ⟨?_, ?_, rfl⟩
  · unfold HandleStart
    split_ifs with h <;> rfl
  · simp only [ControlStepPID, if_neg hr]
    unfold potFilteredNext potSeed
    rw [h0, if_pos rfl]
    rw [show (1 - PotAlpha) * ((raw : Int) : ℚ) + PotAlpha * (raw : ℚ) = ((raw : Int) : ℚ) by ring]
    exact cTrunc_intCast raw

/-- Witness for C6 (amended) at a concrete idle state and a fresh filter. -/
theorem C6_filter_reset_amended_witness :
    (HandleStart stIdle 3 4).1.ctrl.PotFiltered = stIdle.ctrl.PotFiltered ∧
    (ControlStepPID cfgUnit ctrlSeed0 400 5).PotFiltered = 400 ∧
    (V1.setupState 12).PotFiltered = PotCenter :=
  C6_filter_reset_amended stIdle 3 4 cfgUnit ctrlSeed0 400 5 12 (by decide) rfl

/-- Claim C9 is false in its last-sample clause: ExperimentStartMs (the
sample-offset origin) is armed before the blocking slew to base while
ExperimentEndMs is armed after it, so with a 380 ms slew the run ends at
20380 and the final loop iteration still records a sample at offset
20375 > ExperimentDurationMs, even though the phase does become Idle and
the buffer readable. -/
theorem C9_duration_cex :
    (LoopStep (LoopStep stIdle (some (0, 380)) 660 385 660 386 387) none
      660 20370 660 20375 20380).running = false ∧
    (LoopStep (LoopStep stIdle (some (0, 380)) 660 385 660 386 387) none
      660 20370 660 20375 20380).SamplesReady = true ∧
    (LoopStep (LoopStep stIdle (some (0, 380)) 660 385 660 386 387) none
      660 20370 660 20375 20380).samples.map Sample.tms = [20375] ∧
    ExperimentDurationMs < 20375 := by
  refine ⟨?_, ?_, ?_, by decide⟩ <;>
    simp [LoopStep, HandleStart, HoldEscMin, TrySample, ControlStepPID, stIdle, sampleOf,
      ExperimentDurationMs, MaxSamples, SamplePeriodMs, PotMinSafe, PotMaxSafe]

/-- Claim C9 (amended): when the duration timer elapses the phase becomes
Idle and the sample buffer becomes readable, and no further samples are
recorded while idle; but sample offsets are measured from before the pre-run
slew while the end timer is armed after it, so the last sample's offset is
bounded by the duration plus the slew time plus the final iteration's
latency, not by ExperimentDurationMs alone. -/
theorem C9_duration_amended (st : SysState) (req : Option (Nat × Nat)) (rawA : Int)
    (nowA : Nat) (rawB : Int) (nowB nowC : Nat)
    (st2 : SysState) (r2 : Int) (n2 : Nat) (r3 : Int) (n3 n4 : Nat)
    (st3 : SysState) (now slewMs : Nat)
    (h1 : st.running = true) (h2 : st.ExperimentEndMs ≤ nowC)
    (h3 : st2.running = false) (h4 : st3.running = false) :
    ((LoopStep st req rawA nowA rawB nowB nowC).running = false ∧
     (LoopStep st req rawA nowA rawB nowB nowC).SamplesReady = true) ∧
    (LoopStep st2 none r2 n2 r3 n3 n4).samples = st2.samples ∧
    ((HandleStart st3 now slewMs).1.ExperimentStartMs = now ∧
     (HandleStart st3 now slewMs).1.ExperimentEndMs = now + slewMs + ExperimentDurationMs) := by
  refine ⟨?_, ?_, ?_⟩
  · unfold LoopStep
    rw [if_neg (by simp [h1])]
    simp only [TrySample_EndMs]
    rw [if_pos (by omega)]
    exact ⟨rfl, rfl⟩
  · unfold LoopStep
    rw [if_pos h3]
  · unfold HandleStart
    rw [if_neg (by simp [h4])]
    exact ⟨rfl, rfl⟩

/-- Witness for C9 (amended) at concrete end-of-run, idle and start steps. -/
theorem C9_duration_amended_witness :
    ((LoopStep stRun none 660 20370 660 20375 20380).running = false ∧
     (LoopStep stRun none 660 20370 660 20375 20380).SamplesReady = true) ∧
    (LoopStep stIdle none 660 1 660 2 3).samples = stIdle.samples ∧
    ((HandleStart stIdle 7 380).1.ExperimentStartMs = 7 ∧
     (HandleStart stIdle 7 380).1.ExperimentEndMs = 7 + 380 + ExperimentDurationMs) :=
  C9_duration_amended stRun none 660 20370 660 20375 20380 stIdle 660 1 660 2 3 stIdle 7 380
    rfl (by decide) rfl rfl

/-- Auxiliary induction for C10: iterating TrySample over strictly
increasing in-window sampling times keeps the recorded offsets strictly
increasing, provided every already-recorded offset lies before all the
remaining sampling times. -/
theorem TrySampleFold_sorted_aux :
    ∀ (ts : List (Int × Nat)) (st : SysState),
      st.running = true →
      (st.samples.map Sample.tms).Pairwise (· < ·) →
      (∀ smp ∈ st.samples, ∀ p ∈ ts, st.ExperimentStartMs + smp.tms < p.2) →
      (ts.map Prod.snd).Pairwise (· < ·) →
      (∀ p ∈ ts, st.ExperimentStartMs ≤ p.2 ∧ p.2 - st.ExperimentStartMs < 65536) →
      ((TrySampleFold st ts).samples.map Sample.tms).Pairwise (· < ·) := by
  intro ts
  induction ts with
  | nil =>
    intro st _ hsorted _ _ _
    exact hsorted
  | cons p rest ih =>
    intro st hrun hsorted hpast hts hwin
    show ((TrySampleFold (TrySample st p.1 p.2) rest).samples.map Sample.tms).Pairwise (· < ·)
    have hts' : List.Pairwise (· < ·) (p.2 :: rest.map Prod.snd) := by
      rw [List.map_cons] at hts
      exact hts
    have hts2 := List.pairwise_cons.mp hts'
    rcases TrySample_spec st p.1 p.2 with heq | ⟨_, hle, hlen, heq⟩
    · rw [heq]
      refine ih st hrun hsorted ?_ hts2.2 ?_
      · intro smp hs q hq
        exact hpast smp hs q (List.mem_cons_of_mem p hq)
      · intro q hq
        exact hwin q (List.mem_cons_of_mem p hq)
    · rw [heq]
      have hwinp := hwin p (List.mem_cons_self p rest)
      have htms : (sampleOf st p.1 p.2).tms = p.2 - st.ExperimentStartMs := by
        unfold sampleOf
        exact Nat.mod_eq_of_lt hwinp.2
      refine ih _ hrun ?_ ?_ hts2.2 ?_
      · dsimp only
        simp only [List.map_append, List.map_cons, List.map_nil]
        refine List.pairwise_append.mpr ⟨hsorted, List.pairwise_singleton _ _, ?_⟩
        intro a ha b hb
        simp only [List.mem_singleton] at hb
        subst hb
        rw [htms]
        simp only [List.mem_map] at ha
        obtain ⟨smp0, hs0, rfl⟩ := ha
        have := hpast smp0 hs0 p (List.mem_cons_self p rest)
        omega
      · dsimp only
        intro smp hs q hq
        simp only [List.mem_append, List.mem_singleton] at hs
        rcases hs with hs | rfl
        · exact hpast smp hs q (List.mem_cons_of_mem p hq)
        · rw [htms]
          have hq2 : p.2 < q.2 := hts2.1 q.2 (List.mem_map_of_mem Prod.snd hq)
          omega
      · dsimp only
        intro q hq
        exact hwin q (List.mem_cons_of_mem p hq)

/-- Claim C10: within a single run (sample buffer reset at start), iterating
TrySample over strictly increasing sampling times that stay within the
uint16 offset window records strictly increasing time offsets, so the
per-run arrays served by /data are sorted by time. -/
theorem C10_sample_times_sorted (st : SysState) (ts : List (Int × Nat))
    (h1 : st.running = true)
    (h2 : st.samples = [])
    (h3 : (ts.map Prod.snd).Pairwise (· < ·))
    (h4 : ∀ p ∈ ts, st.ExperimentStartMs ≤ p.2 ∧ p.2 - st.ExperimentStartMs < 65536) :
    ((TrySampleFold st ts).samples.map Sample.tms).Pairwise (· < ·) := by
  refine TrySampleFold_sorted_aux ts st h1 ?_ ?_ h3 h4
  · rw [h2]
    exact List.Pairwise.nil
  · intro smp hs
    rw [h2] at hs
    simp at hs

/-- Witness for C10 over a concrete two-sample run. -/
theorem C10_sample_times_sorted_witness :
    ((TrySampleFold stRunW [(660, 10), (661, 60)]).samples.map Sample.tms).Pairwise (· < ·) :=
  C10_sample_times_sorted stRunW [(660, 10), (661, 60)] rfl rfl (by decide) (by decide)

/-- Witness for C8 with out-of-range requests Kp = 7, Ki = -1, Kd = 3. -/
theorem C8_config_clamp_roundtrip_witness :
    (HandleState { stIdle with cfg := HandleSet stIdle.cfg { kp := some 7, ki := some (-1), kd := some 3, invert := none } } 660 0).kp = constrainQ 7 0 5 ∧
    (HandleState { stIdle with cfg := HandleSet stIdle.cfg { kp := some 7, ki := some (-1), kd := some 3, invert := none } } 660 0).ki = constrainQ (-1) 0 1 ∧
    (HandleState { stIdle with cfg := HandleSet stIdle.cfg { kp := some 7, ki := some (-1), kd := some 3, invert := none } } 660 0).kd = constrainQ 3 0 2 ∧
    (HandleState { stIdle with cfg := HandleSet stIdle.cfg { kp := some 7, ki := some (-1), kd := some 3, invert := none } } 660 0).kp ≠ 7 ∧
    (HandleState { stIdle with cfg := HandleSet stIdle.cfg { kp := some 7, ki := some (-1), kd := some 3, invert := none } } 660 0).ki ≠ -1 ∧
    (HandleState { stIdle with cfg := HandleSet stIdle.cfg { kp := some 7, ki := some (-1), kd := some 3, invert := none } } 660 0).kd ≠ 3 ∧
    (0 ≤ constrainQ 7 0 5 ∧ constrainQ 7 0 5 ≤ 5) ∧
    (0 ≤ constrainQ (-1) 0 1 ∧ constrainQ (-1) 0 1 ≤ 1) ∧
    (0 ≤ constrainQ 3 0 2 ∧ constrainQ 3 0 2 ≤ 2) :=
  C8_config_clamp_roundtrip stIdle 7 (-1) 3 660 0 (Or.inr (by norm_num))
    (Or.inl (by norm_num)) (Or.inr (by norm_num))

end PidRig
